import Mathlib

/-!
# Zinsrechner — verification of the day-count / interest-accrual engine

Shallow embedding of the interest calculation of the Zinsrechner repository.

* `Zinsrechner.calculateInterest`, `Zinsrechner.calculate30360Days` and
  `Zinsrechner.calculateEffectiveYearBasis` embed
  `src/utils/interestCalculation.ts`.
* The namespace `Zinsrechner.AppLayout` embeds the calculation helpers of
  `src/AppLayout.tsx` (per-position, quarterly, accumulated, totals, reserve).
* The namespace `Zinsrechner.Part003` embeds the older `AppLayout` variant
  whose `calculateInterest` subtracts one day from the start before an
  exclusive diff.

Dates are date-only values (the app feeds `dayjs` values at midnight into the
engine), modelled as proleptic-Gregorian triples `(year, month, day)` with a
rata-die style `toDays` numbering, so `dayjs`'s `e.diff(s, "day")` is exactly
`toDays e - toDays s`.  JavaScript numbers are modelled as exact rationals;
`Math.round` is `⌊x + 1/2⌋` (round half toward positive infinity), which is
JavaScript's rounding rule.  All concrete evaluations below stay inside
dyadic/small-denominator rationals, where the double-precision computation of
the source agrees with exact rational arithmetic.
-/

namespace Zinsrechner

/-- Gregorian leap-year test, as in the `dayjs` `isLeapYear` plugin used by the
source: divisible by 4 and not by 100, or divisible by 400. -/
def isLeapYear (y : Nat) : Bool :=
  (y % 4 == 0 && y % 100 != 0) || (y % 400 == 0)

/-- Length in days of month `m` (1–12) of year `y`. -/
def daysInMonth (y m : Nat) : Nat :=
  if m = 1 then 31
  else if m = 2 then (if isLeapYear y then 29 else 28)
  else if m = 3 then 31
  else if m = 4 then 30
  else if m = 5 then 31
  else if m = 6 then 30
  else if m = 7 then 31
  else if m = 8 then 31
  else if m = 9 then 30
  else if m = 10 then 31
  else if m = 11 then 30
  else 31

/-- Days in the months of year `y` strictly before month `m`. -/
def daysBeforeMonth (y m : Nat) : Nat :=
  ((List.range (m - 1)).map (fun i => daysInMonth y (i + 1))).sum

/-- A calendar date: the date part of a `dayjs` value (year ≥ 1 CE). -/
structure Date where
  year : Nat
  month : Nat
  day : Nat
deriving DecidableEq

/-- A well-formed calendar date. -/
def Date.Valid (d : Date) : Prop :=
  1 ≤ d.year ∧ 1 ≤ d.month ∧ d.month ≤ 12 ∧ 1 ≤ d.day ∧
    d.day ≤ daysInMonth d.year d.month

instance (d : Date) : Decidable d.Valid := by
  unfold Date.Valid; infer_instance

/-- Number of leap years in `1..y`. -/
def leapsUpTo (y : Nat) : Nat := y / 4 - y / 100 + y / 400

/-- 1-based day of year. -/
def Date.dayOfYear (d : Date) : Nat := daysBeforeMonth d.year d.month + d.day

/-- Rata-die style day number: differences of `toDays` are exactly what
`dayjs`'s `diff(_, "day")` returns for date-only values. -/
def Date.toDays (d : Date) : Nat :=
  365 * (d.year - 1) + leapsUpTo (d.year - 1) + d.dayOfYear

/-- `e.diff(s, "day")` of `dayjs` for date-only values: the exact signed number
of calendar days from `s` to `e` (no truncation occurs at midnight). -/
def diffDays (e s : Date) : Int := (e.toDays : Int) - s.toDays

/-- The day-count conventions of `src/utils/interestCalculation.ts`. -/
inductive DayCountConvention where
  | actual
  | thirty360
deriving DecidableEq

/-- The fields of the `KontoData` record that the calculation reads.  The
optional fields model the `?:` fields of the TypeScript interface; the source
reads them as `entry.dayCountConvention || "actual"` and
`entry.verbuchteRueckstellung || 0`. -/
structure KontoData where
  startDatum : Date
  endDatum : Date
  zinssatz : ℚ
  nominal : ℚ
  dayCountConvention : Option DayCountConvention
  verbuchteRueckstellung : Option ℚ
deriving DecidableEq

/-- JavaScript's `Math.round` on an exact rational input: round half toward
positive infinity. -/
def jsRound (q : ℚ) : Int := ⌊q + 1 / 2⌋

/-- `Math.round(x * 100) / 100`, the 2-decimal rounding used everywhere in the
source. -/
def round2 (q : ℚ) : ℚ := (jsRound (q * 100) : ℚ) / 100

/-- `calculate30360Days` of `src/utils/interestCalculation.ts`: cap each
day-of-month at 30 (only `31` is capped) and take
`(y2-y1)*360 + (m2-m1)*30 + (d2-d1) + 1`. -/
def calculate30360Days (startDate endDate : Date) : Int :=
  let d1 : Nat := if startDate.day = 31 then 30 else startDate.day
  let d2 : Nat := if endDate.day = 31 then 30 else endDate.day
  ((endDate.year : Int) - startDate.year) * 360 +
    ((endDate.month : Int) - startDate.month) * 30 +
    ((d2 : Int) - (d1 : Int)) + 1

/-- The inclusive actual day count `pEndDatum.diff(pStartDatum, "day") + 1`
used by the `actual` branch of `calculateInterest`. -/
def actualDays (s e : Date) : Int := diffDays e s + 1

/-- The year length `365`/`366` used as weight value in
`calculateEffectiveYearBasis` (`dayjs(currentYear-01-01).isLeapYear()`). -/
def yearDays (y : Nat) : ℚ := if isLeapYear y then 366 else 365

/-- `daysInThisYear` computed by one iteration of the `while` loop of
`calculateEffectiveYearBasis` for iteration year `y` (the loop only runs when
`startDate.year ≠ endDate.year`).  For the start year the sub-interval end is
`Dec 31 plus one day` (= Jan 1 of the next year), clamped back to `endDate`
when that lies after `endDate`; in every branch the source then adds `1` to
the exclusive diff. -/
def subIntervalDays (startDate endDate : Date) (y : Nat) : Int :=
  if y = startDate.year then
    let boundary : Date := ⟨y + 1, 1, 1⟩
    let yearEnd : Date :=
      if endDate.toDays < boundary.toDays then endDate else boundary
    diffDays yearEnd startDate + 1
  else if y = endDate.year then
    diffDays endDate ⟨y, 1, 1⟩ + 1
  else
    diffDays ⟨y + 1, 1, 1⟩ ⟨y, 1, 1⟩ + 1

/-- The years visited by the `while (currentDate.year() <= endYear)` loop:
`startYear, startYear+1, …, endYear` (empty when `endYear < startYear`). -/
def loopYears (startYear endYear : Nat) : List Nat :=
  (List.range (endYear + 1 - startYear)).map (fun i => startYear + i)

/-- `calculateEffectiveYearBasis` of `src/utils/interestCalculation.ts`:
single-year ranges use that year's length, multi-year ranges a weighted
average `Σ(dᵢ·bᵢ)/Σ(dᵢ)` with the loop's `daysInThisYear` as weights, and the
degenerate `Σdᵢ ≤ 0` case falls back to `365`. -/
def calculateEffectiveYearBasis (startDate endDate : Date) : ℚ :=
  if startDate.year = endDate.year then
    if isLeapYear startDate.year then 366 else 365
  else
    let years := loopYears startDate.year endDate.year
    let totalDays : Int := (years.map (subIntervalDays startDate endDate)).sum
    let weightedYearDays : ℚ :=
      (years.map (fun y =>
        ((subIntervalDays startDate endDate y : ℚ) * yearDays y))).sum
    if 0 < totalDays then weightedYearDays / (totalDays : ℚ) else 365

/-- `calculateInterest` of `src/utils/interestCalculation.ts`. -/
def calculateInterest (entry : KontoData) (pStartDatum pEndDatum : Date) : ℚ :=
  let convention := entry.dayCountConvention.getD DayCountConvention.actual
  let days : Int :=
    if convention = DayCountConvention.thirty360 then
      calculate30360Days pStartDatum pEndDatum
    else
      actualDays pStartDatum pEndDatum
  let yearBasis : ℚ :=
    if convention = DayCountConvention.thirty360 then 360
    else calculateEffectiveYearBasis pStartDatum pEndDatum
  if days ≤ 0 then 0
  else round2 (entry.nominal * (entry.zinssatz / 100) * ((days : ℚ) / yearBasis))

end Zinsrechner

namespace Zinsrechner.AppLayout

open Zinsrechner

/-- `calculateInterest` of `src/AppLayout.tsx`: exclusive day diff (no `+1`),
fixed basis 365, no non-positive-day guard. -/
def calculateInterest (entry : KontoData) (startDatum endDatum : Date) : ℚ :=
  let days : Int := diffDays endDatum startDatum
  round2 (entry.nominal * (entry.zinssatz / 100) * ((days : ℚ) / 365))

/-- `calculateSingleInterest` of `src/AppLayout.tsx`. -/
def calculateSingleInterest (entry : KontoData) : ℚ :=
  calculateInterest entry entry.startDatum entry.endDatum

/-- `calculateTotalInterest` of `src/AppLayout.tsx`: fold the already-rounded
per-position amounts and round the sum once. -/
def calculateTotalInterest (data : List KontoData) : ℚ :=
  round2 ((data.map calculateSingleInterest).sum)

/-- `calculateQuarterlySingleInterest` of `src/AppLayout.tsx`.  The window
start is clipped to the position's start date; the window end is used as
given. -/
def calculateQuarterlySingleInterest (quartalsBeginn quartalsEnde : Option Date)
    (entry : KontoData) : ℚ :=
  match quartalsBeginn, quartalsEnde with
  | some qb, some qe =>
    if qe.toDays < entry.startDatum.toDays then 0
    else if qb.toDays < entry.startDatum.toDays then
      calculateInterest entry entry.startDatum qe
    else
      calculateInterest entry qb qe
  | _, _ => 0

/-- `calculateAccumulatedInterest` of `src/AppLayout.tsx`: interest from the
position start to the cutoff (`quartalsEnde`), zero when there is no cutoff or
the cutoff lies before the start. -/
def calculateAccumulatedInterest (quartalsEnde : Option Date)
    (entry : KontoData) : ℚ :=
  match quartalsEnde with
  | some qe =>
    if qe.toDays < entry.startDatum.toDays then 0
    else calculateInterest entry entry.startDatum qe
  | none => 0

/-- The `Rückstellung (€)` column of `src/AppLayout.tsx` (and the identical
`reserve` of `buildTableContent`): accumulated interest minus
`verbuchteRueckstellung || 0`, with no clamping. -/
def rueckstellung (quartalsEnde : Option Date) (entry : KontoData) : ℚ :=
  calculateAccumulatedInterest quartalsEnde entry -
    entry.verbuchteRueckstellung.getD 0

end Zinsrechner.AppLayout

namespace Zinsrechner.Part003

open Zinsrechner

/-- `calculateInterest` of the older `AppLayout` variant (`unnamed/part_003`):
`effectiveStart = pStartDatum.subtract(1, "day")` followed by the exclusive
diff, i.e. `days = diffDays end start + 1` (subtracting one calendar day
lowers the day number by exactly one); fixed basis 365 and no
non-positive-day guard. -/
def calculateInterest (entry : KontoData) (pStartDatum pEndDatum : Date) : ℚ :=
  let days : Int := diffDays pEndDatum pStartDatum + 1
  round2 (entry.nominal * (entry.zinssatz / 100) * ((days : ℚ) / 365))

/-- `calculateQuarterlySingleInterest` of `unnamed/part_003`: unlike
`src/AppLayout.tsx` it also compares the window end with the position end, but
only in the branch where the window start is not before the position start. -/
def calculateQuarterlySingleInterest (quartalsBeginn quartalsEnde : Option Date)
    (entry : KontoData) : ℚ :=
  match quartalsBeginn, quartalsEnde with
  | some qb, some qe =>
    if qe.toDays < entry.startDatum.toDays then 0
    else if qb.toDays < entry.startDatum.toDays then
      calculateInterest entry entry.startDatum qe
    else if entry.endDatum.toDays < qe.toDays then
      calculateInterest entry qb entry.endDatum
    else
      calculateInterest entry qb qe
  | _, _ => 0

end Zinsrechner.Part003

namespace Zinsrechner

/-- Round half away from zero at 2 decimals, following the specification's
words (§4.3 step 5: "standard round half up in magnitude"): used only to
compare the source's rounding against the specified one. -/
def roundHalfAwayFromZero2 (q : ℚ) : ℚ :=
  if q < 0 then -((⌊(-q) * 100 + 1 / 2⌋ : ℚ) / 100)
  else (⌊q * 100 + 1 / 2⌋ : ℚ) / 100

/-- The specification's multi-year sub-interval weight (§4.2 step 2, following
the spec's words): the inclusive day length of `[start, endOfStartYear]`, of a
full intermediate year, or of `[Jan 1 of endYear, end]` — used only to compare
the source's weighting against the specified one. -/
def specSubIntervalDays (startDate endDate : Date) (y : Nat) : Int :=
  if y = startDate.year then diffDays ⟨y, 12, 31⟩ startDate + 1
  else if y = endDate.year then diffDays endDate ⟨y, 1, 1⟩ + 1
  else diffDays ⟨y, 12, 31⟩ ⟨y, 1, 1⟩ + 1

/-- The specification's weighted year basis (§4.2, following the spec's
words): `Σ(dᵢ·bᵢ)/Σ(dᵢ)` over the inclusive sub-interval lengths. -/
def specYearBasis (startDate endDate : Date) : ℚ :=
  if startDate.year = endDate.year then yearDays startDate.year
  else
    let years := loopYears startDate.year endDate.year
    let totalDays : Int := (years.map (specSubIntervalDays startDate endDate)).sum
    let weightedYearDays : ℚ :=
      (years.map (fun y =>
        ((specSubIntervalDays startDate endDate y : ℚ) * yearDays y))).sum
    if 0 < totalDays then weightedYearDays / (totalDays : ℚ) else 365

end Zinsrechner

namespace Zinsrechner

/-! ## Arithmetic facts about the date model -/

lemma leapsUpTo_succ (y : Nat) :
    leapsUpTo (y + 1) = leapsUpTo y + (if isLeapYear (y + 1) then 1 else 0) := by
  unfold leapsUpTo isLeapYear
  split
  · rename_i h
    simp only [Bool.or_eq_true, Bool.and_eq_true, beq_iff_eq, bne_iff_ne, ne_eq] at h
    omega
  · rename_i h
    simp only [Bool.or_eq_true, Bool.and_eq_true, beq_iff_eq, bne_iff_ne, ne_eq,
      not_or, not_and, Decidable.not_not] at h
    omega

lemma leapsUpTo_pred (y : Nat) (hy : 1 ≤ y) :
    leapsUpTo y = leapsUpTo (y - 1) + (if isLeapYear y then 1 else 0) := by
  have h := leapsUpTo_succ (y - 1)
  have hyy : y - 1 + 1 = y := by omega
  rw [hyy] at h
  exact h

lemma dayOfYear_le (d : Date) (h : d.Valid) :
    d.dayOfYear ≤ 365 + (if isLeapYear d.year then 1 else 0) := by
  obtain ⟨y, m, dd⟩ := d
  obtain ⟨-, hm1, hm2, -, hd2⟩ := h
  simp only [Date.dayOfYear]
  by_cases hl : isLeapYear y = true
  · simp only [hl, if_true]
    interval_cases m <;>
      · simp [daysBeforeMonth, daysInMonth, List.range_succ, hl] at hd2 ⊢ <;> omega
  · rw [Bool.not_eq_true] at hl
    simp only [hl, Bool.false_eq_true, if_false]
    interval_cases m <;>
      · simp [daysBeforeMonth, daysInMonth, List.range_succ, hl] at hd2 ⊢ <;> omega

lemma daysBeforeMonth_one (y : Nat) : daysBeforeMonth y 1 = 0 := by
  simp [daysBeforeMonth]

lemma toDays_jan1 (y : Nat) :
    (Date.mk y 1 1).toDays = 365 * (y - 1) + leapsUpTo (y - 1) + 1 := by
  simp [Date.toDays, Date.dayOfYear, daysBeforeMonth_one]

lemma toDays_lt_next_jan1 (d : Date) (h : d.Valid) :
    d.toDays < (Date.mk (d.year + 1) 1 1).toDays := by
  have hdoy := dayOfYear_le d h
  have hy : 1 ≤ d.year := h.1
  have hleap := leapsUpTo_pred d.year hy
  rw [toDays_jan1]
  simp only [Nat.add_sub_cancel]
  unfold Date.toDays
  omega

lemma jan1_le_toDays (d : Date) (h : d.Valid) :
    (Date.mk d.year 1 1).toDays ≤ d.toDays := by
  rw [toDays_jan1]
  unfold Date.toDays Date.dayOfYear
  have : 1 ≤ d.day := h.2.2.2.1
  omega

lemma jan1_valid (y : Nat) (hy : 1 ≤ y) : (Date.mk y 1 1).Valid := by
  refine ⟨hy, le_refl 1, by norm_num, le_refl 1, ?_⟩
  simp [daysInMonth]

lemma jan1_lt_next_jan1 (y : Nat) (hy : 1 ≤ y) :
    (Date.mk y 1 1).toDays < (Date.mk (y + 1) 1 1).toDays :=
  toDays_lt_next_jan1 (Date.mk y 1 1) (jan1_valid y hy)

lemma jan1_toDays_mono (y1 y2 : Nat) (h1 : 1 ≤ y1) (h : y1 ≤ y2) :
    (Date.mk y1 1 1).toDays ≤ (Date.mk y2 1 1).toDays := by
  induction y2 with
  | zero => omega
  | succ n ih =>
    rcases Nat.lt_or_ge y1 (n + 1) with hlt | hge
    · have hle : y1 ≤ n := by omega
      have h1n : 1 ≤ n := by omega
      exact le_trans (ih hle) (le_of_lt (jan1_lt_next_jan1 n h1n))
    · have : y1 = n + 1 := by omega
      rw [this]

lemma year_le_of_toDays_le (s e : Date) (hs : s.Valid) (he : e.Valid)
    (h : s.toDays ≤ e.toDays) : s.year ≤ e.year := by
  by_contra hc
  push_neg at hc
  have h1 : e.toDays < (Date.mk (e.year + 1) 1 1).toDays := toDays_lt_next_jan1 e he
  have h2 : (Date.mk (e.year + 1) 1 1).toDays ≤ (Date.mk s.year 1 1).toDays :=
    jan1_toDays_mono (e.year + 1) s.year (by omega) (by omega)
  have h3 : (Date.mk s.year 1 1).toDays ≤ s.toDays := jan1_le_toDays s hs
  omega

end Zinsrechner

namespace Zinsrechner

/-! ## The multi-year loop of `calculateEffectiveYearBasis` -/

lemma mem_loopYears (a b y : Nat) (h : y ∈ loopYears a b) : a ≤ y ∧ y ≤ b := by
  simp only [loopYears, List.mem_map, List.mem_range] at h
  obtain ⟨i, hi, rfl⟩ := h
  omega

lemma loopYears_ne_nil (a b : Nat) (h : a ≤ b) : loopYears a b ≠ [] := by
  intro hnil
  have hlen := congrArg List.length hnil
  simp only [loopYears, List.length_map, List.length_range, List.length_nil] at hlen
  omega

lemma subIntervalDays_pos (s e : Date) (hs : s.Valid) (he : e.Valid)
    (h : s.toDays ≤ e.toDays) (y : Nat) (hy1 : s.year ≤ y) (hy2 : y ≤ e.year) :
    0 < subIntervalDays s e y := by
  have hy0 : 1 ≤ s.year := hs.1
  simp only [subIntervalDays]
  by_cases h1 : y = s.year
  · subst h1
    rw [if_pos rfl]
    have hnext := toDays_lt_next_jan1 s hs
    split
    · unfold diffDays
      omega
    · unfold diffDays
      omega
  · rw [if_neg h1]
    by_cases h2 : y = e.year
    · subst h2
      rw [if_pos rfl]
      have h3 : (Date.mk e.year 1 1).toDays ≤ e.toDays := jan1_le_toDays e he
      unfold diffDays
      omega
    · rw [if_neg h2]
      have h3 := jan1_lt_next_jan1 y (by omega)
      unfold diffDays
      omega

lemma weighted_sum_bounds (l : List Nat) (w b : Nat → ℚ)
    (hw : ∀ y ∈ l, 0 ≤ w y) (hb : ∀ y ∈ l, 365 ≤ b y ∧ b y ≤ 366) :
    365 * (l.map w).sum ≤ (l.map (fun y => w y * b y)).sum ∧
      (l.map (fun y => w y * b y)).sum ≤ 366 * (l.map w).sum := by
  induction l with
  | nil => simp
  | cons a t ih =>
    have ha := hb a (by simp)
    have haw := hw a (by simp)
    have iht := ih (fun y hy => hw y (by simp [hy])) (fun y hy => hb y (by simp [hy]))
    simp only [List.map_cons, List.sum_cons]
    constructor
    · nlinarith [ha.1, ha.2, haw, iht.1, iht.2]
    · nlinarith [ha.1, ha.2, haw, iht.1, iht.2]

lemma cast_int_sum_map (l : List Nat) (f : Nat → Int) :
    (((l.map f).sum : Int) : ℚ) = (l.map (fun y => ((f y : Int) : ℚ))).sum := by
  rw [Int.cast_list_sum, List.map_map]
  rfl

lemma yearDays_bounds (y : Nat) : 365 ≤ yearDays y ∧ yearDays y ≤ 366 := by
  unfold yearDays
  split <;> norm_num

end Zinsrechner

namespace Zinsrechner

/-! ## Evaluation helpers -/

lemma jsRound_eq (q : ℚ) (n : Int) (h1 : (n : ℚ) ≤ q + 1 / 2)
    (h2 : q + 1 / 2 < (n : ℚ) + 1) : jsRound q = n := by
  unfold jsRound
  rw [Int.floor_eq_iff]
  exact ⟨h1, by exact_mod_cast h2⟩

lemma round2_eval (q : ℚ) (n : Int) (h1 : (n : ℚ) ≤ q * 100 + 1 / 2)
    (h2 : q * 100 + 1 / 2 < (n : ℚ) + 1) : round2 q = (n : ℚ) / 100 := by
  unfold round2
  rw [jsRound_eq (q * 100) n h1 h2]

lemma calculateInterest_actual_eval (entry : KontoData) (s e : Date)
    (hconv : entry.dayCountConvention.getD DayCountConvention.actual =
      DayCountConvention.actual)
    (hdays : 0 < actualDays s e) :
    calculateInterest entry s e =
      round2 (entry.nominal * (entry.zinssatz / 100) *
        ((actualDays s e : ℚ) / calculateEffectiveYearBasis s e)) := by
  have hnot : ¬ actualDays s e ≤ 0 := by omega
  simp [calculateInterest, hconv, hnot]

lemma calculateInterest_30360_eval (entry : KontoData) (s e : Date)
    (hconv : entry.dayCountConvention = some DayCountConvention.thirty360)
    (hdays : 0 < calculate30360Days s e) :
    calculateInterest entry s e =
      round2 (entry.nominal * (entry.zinssatz / 100) *
        ((calculate30360Days s e : ℚ) / 360)) := by
  have hnot : ¬ calculate30360Days s e ≤ 0 := by omega
  simp [calculateInterest, hconv, hnot]

lemma basis_single_year (s e : Date) (hy : s.year = e.year) :
    calculateEffectiveYearBasis s e = if isLeapYear s.year then 366 else 365 := by
  unfold calculateEffectiveYearBasis
  rw [if_pos hy]

set_option maxHeartbeats 1000000 in
lemma daysInMonth_le (y m : Nat) : daysInMonth y m ≤ 31 := by
  unfold daysInMonth
  split_ifs <;> omega

lemma cap31 (d : Nat) (hd : d ≤ 31) : (if d = 31 then 30 else d) = min d 30 := by
  split <;> omega

end Zinsrechner

namespace Zinsrechner

/-! ## Claim theorems -/

/-- C1: under the `ACTUAL_ACTUAL` convention, for `start ≤ end` the day count
equals the calendar difference plus one — the size of the inclusive interval
`[start, end]` — so a same-day window counts 1 day and yields one day of
interest rather than zero (1000 at 5% on the single day 29.02.2024 gives
0.14, not 0). -/
theorem actual_day_count_inclusive (s e : Date) (h : s.toDays ≤ e.toDays) :
    actualDays s e = diffDays e s + 1 ∧
    actualDays s e = ((Finset.Icc s.toDays e.toDays).card : Int) ∧
    (s.toDays = e.toDays → actualDays s e = 1) ∧
    0 < actualDays s e ∧
    calculateInterest (KontoData.mk ⟨2024, 2, 29⟩ ⟨2024, 2, 29⟩ 5 1000 none none)
      ⟨2024, 2, 29⟩ ⟨2024, 2, 29⟩ = 7 / 50 := by
  refine ⟨rfl, ?_, ?_, ?_, ?_⟩
  · rw [Nat.card_Icc]
    unfold actualDays diffDays
    omega
  · intro heq
    unfold actualDays diffDays
    omega
  · unfold actualDays diffDays
    omega
  · have hb : calculateEffectiveYearBasis (⟨2024, 2, 29⟩ : Date) ⟨2024, 2, 29⟩ = 366 := by
      rw [basis_single_year ⟨2024, 2, 29⟩ ⟨2024, 2, 29⟩ rfl]
      rw [show isLeapYear (Date.mk 2024 2 29).year = true from by decide]
      rw [if_pos rfl]
    rw [calculateInterest_actual_eval
        (KontoData.mk ⟨2024, 2, 29⟩ ⟨2024, 2, 29⟩ 5 1000 none none)
        ⟨2024, 2, 29⟩ ⟨2024, 2, 29⟩ rfl (by decide), hb,
      show actualDays (⟨2024, 2, 29⟩ : Date) ⟨2024, 2, 29⟩ = 1 from by decide]
    rw [round2_eval _ 14 (by norm_num) (by norm_num)]
    norm_num

theorem actual_day_count_inclusive_witness :
    actualDays ⟨2024, 2, 29⟩ ⟨2024, 2, 29⟩ = 1 :=
  (actual_day_count_inclusive ⟨2024, 2, 29⟩ ⟨2024, 2, 29⟩ (le_refl _)).2.2.1 rfl

/-- C5: under `THIRTY_360` the day count caps each day-of-month at 30 and is
`(y2-y1)*360 + (m2-m1)*30 + (d2-d1) + 1`; for 1000 at 6% from 01.01.2023 to
01.02.2023 the day count is 31 (basis 360) and the interest is 5.17. -/
theorem thirty360_day_count (s e : Date) (hs : s.Valid) (he : e.Valid) :
    calculate30360Days s e =
      ((e.year : Int) - s.year) * 360 + ((e.month : Int) - s.month) * 30 +
        (((min e.day 30 : Nat) : Int) - ((min s.day 30 : Nat) : Int)) + 1 ∧
    calculate30360Days ⟨2023, 1, 1⟩ ⟨2023, 2, 1⟩ = 31 ∧
    calculateInterest (KontoData.mk ⟨2023, 1, 1⟩ ⟨2023, 2, 1⟩ 6 1000
      (some DayCountConvention.thirty360) none) ⟨2023, 1, 1⟩ ⟨2023, 2, 1⟩ = 517 / 100 := by
  refine ⟨?_, by decide, ?_⟩
  · have hd1 : s.day ≤ 31 := le_trans hs.2.2.2.2 (daysInMonth_le s.year s.month)
    have hd2 : e.day ≤ 31 := le_trans he.2.2.2.2 (daysInMonth_le e.year e.month)
    simp only [calculate30360Days]
    rw [cap31 s.day hd1, cap31 e.day hd2]
  · rw [calculateInterest_30360_eval
        (KontoData.mk ⟨2023, 1, 1⟩ ⟨2023, 2, 1⟩ 6 1000
          (some DayCountConvention.thirty360) none)
        ⟨2023, 1, 1⟩ ⟨2023, 2, 1⟩ rfl (by decide),
      show calculate30360Days (⟨2023, 1, 1⟩ : Date) ⟨2023, 2, 1⟩ = 31 from by decide]
    rw [round2_eval _ 517 (by norm_num) (by norm_num)]
    norm_num

theorem thirty360_day_count_witness :
    calculate30360Days ⟨2023, 1, 1⟩ ⟨2023, 2, 1⟩ = 31 :=
  (thirty360_day_count ⟨2023, 1, 1⟩ ⟨2023, 2, 1⟩ (by decide) (by decide)).2.1

/-- C6: for a single-calendar-year range the basis is 366 for a Gregorian leap
year and 365 otherwise, and a full calendar year of 1000 at 5% yields exactly
50.00 both in 2023 (365/365) and in the leap year 2024 (366/366). -/
theorem same_year_basis (s e : Date) (hy : s.year = e.year) :
    calculateEffectiveYearBasis s e =
      (if (s.year % 4 = 0 ∧ ¬ s.year % 100 = 0) ∨ s.year % 400 = 0
        then (366 : ℚ) else 365) ∧
    calculateInterest (KontoData.mk ⟨2023, 1, 1⟩ ⟨2023, 12, 31⟩ 5 1000 none none)
      ⟨2023, 1, 1⟩ ⟨2023, 12, 31⟩ = 50 ∧
    calculateInterest (KontoData.mk ⟨2024, 1, 1⟩ ⟨2024, 12, 31⟩ 5 1000 none none)
      ⟨2024, 1, 1⟩ ⟨2024, 12, 31⟩ = 50 := by
  refine ⟨?_, ?_, ?_⟩
  · rw [basis_single_year s e hy]
    by_cases hl : isLeapYear s.year = true
    · rw [if_pos hl]
      have hp : (s.year % 4 = 0 ∧ ¬ s.year % 100 = 0) ∨ s.year % 400 = 0 := by
        simpa [isLeapYear] using hl
      rw [if_pos hp]
    · rw [Bool.not_eq_true] at hl
      rw [hl]
      have hp : ¬ ((s.year % 4 = 0 ∧ ¬ s.year % 100 = 0) ∨ s.year % 400 = 0) := by
        intro hc
        have : isLeapYear s.year = true := by
          simp only [isLeapYear, Bool.or_eq_true, Bool.and_eq_true, beq_iff_eq,
            bne_iff_ne, ne_eq]
          exact hc
        exact absurd (this.symm.trans hl) (by decide)
      rw [if_neg hp, if_neg (by simp)]
  · have hb : calculateEffectiveYearBasis (⟨2023, 1, 1⟩ : Date) ⟨2023, 12, 31⟩ = 365 := by
      rw [basis_single_year ⟨2023, 1, 1⟩ ⟨2023, 12, 31⟩ rfl]
      rw [show isLeapYear (Date.mk 2023 1 1).year = false from by decide]
      simp
    rw [calculateInterest_actual_eval
        (KontoData.mk ⟨2023, 1, 1⟩ ⟨2023, 12, 31⟩ 5 1000 none none)
        ⟨2023, 1, 1⟩ ⟨2023, 12, 31⟩ rfl (by decide), hb,
      show actualDays (⟨2023, 1, 1⟩ : Date) ⟨2023, 12, 31⟩ = 365 from by decide]
    rw [round2_eval _ 5000 (by norm_num) (by norm_num)]
    norm_num
  · have hb : calculateEffectiveYearBasis (⟨2024, 1, 1⟩ : Date) ⟨2024, 12, 31⟩ = 366 := by
      rw [basis_single_year ⟨2024, 1, 1⟩ ⟨2024, 12, 31⟩ rfl]
      rw [show isLeapYear (Date.mk 2024 1 1).year = true from by decide]
      rw [if_pos rfl]
    rw [calculateInterest_actual_eval
        (KontoData.mk ⟨2024, 1, 1⟩ ⟨2024, 12, 31⟩ 5 1000 none none)
        ⟨2024, 1, 1⟩ ⟨2024, 12, 31⟩ rfl (by decide), hb,
      show actualDays (⟨2024, 1, 1⟩ : Date) ⟨2024, 12, 31⟩ = 366 from by decide]
    rw [round2_eval _ 5000 (by norm_num) (by norm_num)]
    norm_num

theorem same_year_basis_witness :
    calculateEffectiveYearBasis ⟨2024, 6, 15⟩ ⟨2024, 8, 20⟩ =
      (if (2024 % 4 = 0 ∧ ¬ 2024 % 100 = 0) ∨ 2024 % 400 = 0
        then (366 : ℚ) else 365) :=
  (same_year_basis ⟨2024, 6, 15⟩ ⟨2024, 8, 20⟩ rfl).1

end Zinsrechner

namespace Zinsrechner

lemma total_days_pos (s e : Date) (hs : s.Valid) (he : e.Valid)
    (h : s.toDays ≤ e.toDays) (hlt : s.year < e.year) :
    0 < ((loopYears s.year e.year).map (subIntervalDays s e)).sum := by
  apply List.sum_pos
  · intro x hx
    simp only [List.mem_map] at hx
    obtain ⟨y, hyy, rfl⟩ := hx
    obtain ⟨h1, h2⟩ := mem_loopYears _ _ _ hyy
    exact subIntervalDays_pos s e hs he h y h1 h2
  · intro hnil
    exact loopYears_ne_nil s.year e.year (le_of_lt hlt) (List.map_eq_nil_iff.mp hnil)

lemma basis_sum_bounds (s e : Date) (l : List Nat)
    (hw : ∀ y ∈ l, 0 ≤ subIntervalDays s e y) :
    365 * (((l.map (subIntervalDays s e)).sum : Int) : ℚ) ≤
      (l.map (fun y => ((subIntervalDays s e y : ℚ) * yearDays y))).sum ∧
    (l.map (fun y => ((subIntervalDays s e y : ℚ) * yearDays y))).sum ≤
      366 * (((l.map (subIntervalDays s e)).sum : Int) : ℚ) := by
  induction l with
  | nil => simp
  | cons a t ih =>
    have hb := yearDays_bounds a
    have ha : (0 : ℚ) ≤ ((subIntervalDays s e a : Int) : ℚ) := by
      exact_mod_cast hw a (by simp)
    have iht := ih (fun y hy => hw y (by simp [hy]))
    simp only [List.map_cons, List.sum_cons]
    push_cast
    push_cast at iht
    constructor
    · have h1 : ((subIntervalDays s e a : Int) : ℚ) * 365 ≤
          ((subIntervalDays s e a : Int) : ℚ) * yearDays a :=
        mul_le_mul_of_nonneg_left hb.1 ha
      linarith [iht.1]
    · have h2 : ((subIntervalDays s e a : Int) : ℚ) * yearDays a ≤
          ((subIntervalDays s e a : Int) : ℚ) * 366 :=
        mul_le_mul_of_nonneg_left hb.2 ha
      linarith [iht.2]

/-- C10: for well-formed dates with start ≤ end, the effective year basis lies
between 365 and 366 inclusive — a single year's length or a positively
weighted average of per-year lengths, each 365 or 366. -/
theorem effective_year_basis_bounds (s e : Date) (hs : s.Valid) (he : e.Valid)
    (h : s.toDays ≤ e.toDays) :
    365 ≤ calculateEffectiveYearBasis s e ∧ calculateEffectiveYearBasis s e ≤ 366 := by
  by_cases hy : s.year = e.year
  · rw [basis_single_year s e hy]
    split <;> norm_num
  · have hyear : s.year ≤ e.year := year_le_of_toDays_le s e hs he h
    have hlt : s.year < e.year := lt_of_le_of_ne hyear hy
    have htot := total_days_pos s e hs he h hlt
    have htotQ : (0 : ℚ) <
        ((((loopYears s.year e.year).map (subIntervalDays s e)).sum : Int) : ℚ) := by
      exact_mod_cast htot
    have hbnd := basis_sum_bounds s e (loopYears s.year e.year)
      (fun y hy2 => le_of_lt (subIntervalDays_pos s e hs he h y
        (mem_loopYears _ _ _ hy2).1 (mem_loopYears _ _ _ hy2).2))
    simp only [calculateEffectiveYearBasis]
    rw [if_neg hy, if_pos htot]
    constructor
    · rw [le_div_iff₀ htotQ]
      exact hbnd.1
    · rw [div_le_iff₀ htotQ]
      exact hbnd.2

theorem effective_year_basis_bounds_witness :
    365 ≤ calculateEffectiveYearBasis ⟨2024, 2, 1⟩ ⟨2025, 3, 15⟩ ∧
      calculateEffectiveYearBasis ⟨2024, 2, 1⟩ ⟨2025, 3, 15⟩ ≤ 366 :=
  effective_year_basis_bounds ⟨2024, 2, 1⟩ ⟨2025, 3, 15⟩ (by decide) (by decide) (by decide)

lemma daysBeforeMonth_12 (y : Nat) :
    daysBeforeMonth y 12 = 334 + (if isLeapYear y then 1 else 0) := by
  by_cases hl : isLeapYear y = true
  · simp [daysBeforeMonth, daysInMonth, List.range_succ, hl]
  · rw [Bool.not_eq_true] at hl
    simp [daysBeforeMonth, daysInMonth, List.range_succ, hl]

lemma toDays_dec31_add_one (y : Nat) (hy : 1 ≤ y) :
    (Date.mk y 12 31).toDays + 1 = (Date.mk (y + 1) 1 1).toDays := by
  rw [toDays_jan1]
  have hb := daysBeforeMonth_12 y
  have hstep := leapsUpTo_pred y hy
  unfold Date.toDays Date.dayOfYear
  dsimp only
  simp only [Nat.add_sub_cancel]
  by_cases hl : isLeapYear y = true
  · rw [hl] at hb hstep
    simp only [if_true] at hb hstep
    omega
  · rw [Bool.not_eq_true] at hl
    rw [hl] at hb hstep
    simp only [Bool.false_eq_true, if_false] at hb hstep
    omega

/-- C2 (amended): for a multi-year range the basis is the weighted average
`Σ(dᵢ·bᵢ)/Σ(dᵢ)`, but the loop's weight `dᵢ` for the start year and each
intermediate year is the sub-interval's inclusive day count PLUS ONE (the
source extends those sub-intervals' end to Jan 1 of the following year and
still adds 1); only the end-year weight is the inclusive count stated by the
claim. -/
theorem effective_year_basis_weighted (s e : Date) (hs : s.Valid) (he : e.Valid)
    (h : s.toDays ≤ e.toDays) (hlt : s.year < e.year) :
    calculateEffectiveYearBasis s e =
      ((loopYears s.year e.year).map (fun y =>
        ((subIntervalDays s e y : ℚ) * yearDays y))).sum /
      ((((loopYears s.year e.year).map (subIntervalDays s e)).sum : Int) : ℚ) ∧
    (∀ y : Nat, s.year ≤ y → y < e.year →
      subIntervalDays s e y = specSubIntervalDays s e y + 1) ∧
    subIntervalDays s e e.year = specSubIntervalDays s e e.year := by
  have hy : ¬ s.year = e.year := Nat.ne_of_lt hlt
  refine ⟨?_, ?_, ?_⟩
  · have htot := total_days_pos s e hs he h hlt
    simp only [calculateEffectiveYearBasis]
    rw [if_neg hy, if_pos htot]
  · intro y h1 h2
    have hy1 : 1 ≤ y := le_trans hs.1 h1
    have hdec := toDays_dec31_add_one y hy1
    by_cases hsy : y = s.year
    · have hclamp : ¬ e.toDays < (Date.mk (y + 1) 1 1).toDays := by
        push_neg
        calc (Date.mk (y + 1) 1 1).toDays
            ≤ (Date.mk e.year 1 1).toDays :=
              jan1_toDays_mono (y + 1) e.year (by omega) (by omega)
          _ ≤ e.toDays := jan1_le_toDays e he
      simp only [subIntervalDays, specSubIntervalDays]
      rw [if_pos hsy, if_pos hsy, if_neg hclamp]
      unfold diffDays
      omega
    · have hey : ¬ y = e.year := by omega
      simp only [subIntervalDays, specSubIntervalDays]
      rw [if_neg hsy, if_neg hsy, if_neg hey, if_neg hey]
      unfold diffDays
      omega
  · have hse : ¬ e.year = s.year := by omega
    simp only [subIntervalDays, specSubIntervalDays]
    rw [if_neg hse, if_neg hse]
    simp

theorem effective_year_basis_weighted_witness :
    calculateEffectiveYearBasis ⟨2023, 12, 31⟩ ⟨2024, 1, 1⟩ =
      ((loopYears 2023 2024).map (fun y =>
        ((subIntervalDays ⟨2023, 12, 31⟩ ⟨2024, 1, 1⟩ y : ℚ) * yearDays y))).sum /
      ((((loopYears 2023 2024).map
        (subIntervalDays ⟨2023, 12, 31⟩ ⟨2024, 1, 1⟩)).sum : Int) : ℚ) :=
  (effective_year_basis_weighted ⟨2023, 12, 31⟩ ⟨2024, 1, 1⟩ (by decide) (by decide)
    (by decide) (by decide)).1

/-- C2 counterexample: for the two-day range 31.12.2023–01.01.2024 the source
returns (2·365 + 1·366)/3 = 1096/3 ≈ 365.33 (it weights 2023 with 2 days),
while the claim's inclusive weights give (1·365 + 1·366)/2 = 731/2 = 365.5. -/
theorem effective_year_basis_counterexample :
    calculateEffectiveYearBasis ⟨2023, 12, 31⟩ ⟨2024, 1, 1⟩ = 1096 / 3 ∧
    specYearBasis ⟨2023, 12, 31⟩ ⟨2024, 1, 1⟩ = 731 / 2 ∧
    (1096 / 3 : ℚ) ≠ 731 / 2 := by
  have hl : loopYears (Date.mk 2023 12 31).year (Date.mk 2024 1 1).year =
      [2023, 2024] := by decide
  have h23 : subIntervalDays ⟨2023, 12, 31⟩ ⟨2024, 1, 1⟩ 2023 = 2 := by decide
  have h24 : subIntervalDays ⟨2023, 12, 31⟩ ⟨2024, 1, 1⟩ 2024 = 1 := by decide
  have s23 : specSubIntervalDays ⟨2023, 12, 31⟩ ⟨2024, 1, 1⟩ 2023 = 1 := by decide
  have s24 : specSubIntervalDays ⟨2023, 12, 31⟩ ⟨2024, 1, 1⟩ 2024 = 1 := by decide
  have hy23 : yearDays 2023 = 365 := by
    unfold yearDays
    rw [show isLeapYear 2023 = false from by decide]
    simp
  have hy24 : yearDays 2024 = 366 := by
    unfold yearDays
    rw [show isLeapYear 2024 = true from by decide]
    rw [if_pos rfl]
  refine ⟨?_, ?_, by norm_num⟩
  · simp only [calculateEffectiveYearBasis, hl, List.map_cons, List.map_nil,
      List.sum_cons, List.sum_nil, h23, h24, hy23, hy24]
    norm_num
  · simp only [specYearBasis, hl, List.map_cons, List.map_nil,
      List.sum_cons, List.sum_nil, s23, s24, hy23, hy24]
    norm_num

end Zinsrechner

namespace Zinsrechner

/-- C3 counterexample: nominal −1 at rate 100% under `THIRTY_360` from
01.01.2023 to 15.02.2023 has raw interest `−1·(100/100)·(45/360) = −0.125`;
the source rounds it to −0.12 (`Math.round` takes the half toward +∞), while
round-half-away-from-zero gives −0.13. -/
theorem rounding_counterexample :
    calculateInterest (KontoData.mk ⟨2023, 1, 1⟩ ⟨2023, 2, 15⟩ 100 (-1)
      (some DayCountConvention.thirty360) none) ⟨2023, 1, 1⟩ ⟨2023, 2, 15⟩ = -3 / 25 ∧
    (-1 : ℚ) * (100 / 100) *
      ((calculate30360Days ⟨2023, 1, 1⟩ ⟨2023, 2, 15⟩ : ℚ) / 360) = -1 / 8 ∧
    roundHalfAwayFromZero2 (-1 / 8) = -13 / 100 ∧
    (-3 / 25 : ℚ) ≠ -13 / 100 := by
  refine ⟨?_, ?_, ?_, by norm_num⟩
  · rw [calculateInterest_30360_eval (KontoData.mk ⟨2023, 1, 1⟩ ⟨2023, 2, 15⟩ 100 (-1)
        (some DayCountConvention.thirty360) none) ⟨2023, 1, 1⟩ ⟨2023, 2, 15⟩ rfl (by decide),
      show calculate30360Days (⟨2023, 1, 1⟩ : Date) ⟨2023, 2, 15⟩ = 45 from by decide]
    rw [round2_eval _ (-12) (by norm_num) (by norm_num)]
    norm_num
  · rw [show calculate30360Days (⟨2023, 1, 1⟩ : Date) ⟨2023, 2, 15⟩ = 45 from by decide]
    norm_num
  · unfold roundHalfAwayFromZero2
    rw [if_pos (by norm_num : (-1 / 8 : ℚ) < 0)]
    rw [show (-(-1 / 8 : ℚ)) * 100 + 1 / 2 = 13 by norm_num]
    rw [show ⌊(13 : ℚ)⌋ = 13 from Int.floor_eq_iff.mpr ⟨by norm_num, by norm_num⟩]
    norm_num

/-- C3 (amended): for a positive day count the interest is the raw value
rounded with `Math.round(x·100)/100`, i.e. `⌊x·100 + 1/2⌋/100`; this equals
round-half-away-from-zero for every nonnegative raw value (0.125 → 0.13), but
a negative raw value with an exact half-cent fraction is rounded toward zero
(−0.125 → −0.12), not away from it. -/
theorem rounding_amended :
    (∀ entry : KontoData, ∀ s e : Date,
      entry.dayCountConvention = some DayCountConvention.thirty360 →
      0 < calculate30360Days s e →
      calculateInterest entry s e =
        round2 (entry.nominal * (entry.zinssatz / 100) *
          ((calculate30360Days s e : ℚ) / 360))) ∧
    (∀ entry : KontoData, ∀ s e : Date,
      entry.dayCountConvention.getD DayCountConvention.actual =
        DayCountConvention.actual →
      0 < actualDays s e →
      calculateInterest entry s e =
        round2 (entry.nominal * (entry.zinssatz / 100) *
          ((actualDays s e : ℚ) / calculateEffectiveYearBasis s e))) ∧
    (∀ q : ℚ, 0 ≤ q → round2 q = roundHalfAwayFromZero2 q) ∧
    round2 (1 / 8) = 13 / 100 ∧
    round2 (-1 / 8) = -3 / 25 := by
  refine ⟨?_, ?_, ?_, ?_, ?_⟩
  · intro entry s e hconv hd
    exact calculateInterest_30360_eval entry s e hconv hd
  · intro entry s e hconv hd
    exact calculateInterest_actual_eval entry s e hconv hd
  · intro q hq
    unfold round2 roundHalfAwayFromZero2 jsRound
    rw [if_neg (by linarith : ¬ q < 0)]
  · rw [round2_eval _ 13 (by norm_num) (by norm_num)]
    norm_num
  · rw [round2_eval _ (-12) (by norm_num) (by norm_num)]
    norm_num

theorem rounding_amended_witness :
    round2 0 = roundHalfAwayFromZero2 0 :=
  rounding_amended.2.2.1 0 le_rfl

/-- C4 counterexample: under `THIRTY_360` the inverted range 31.01.2023 →
30.01.2023 (end strictly before start) still has capped-day count 1, so 1000
at 5% yields 0.14, not 0. -/
theorem inverted_range_counterexample :
    (Date.mk 2023 1 30).toDays < (Date.mk 2023 1 31).toDays ∧
    calculateInterest (KontoData.mk ⟨2023, 1, 31⟩ ⟨2023, 1, 30⟩ 5 1000
      (some DayCountConvention.thirty360) none) ⟨2023, 1, 31⟩ ⟨2023, 1, 30⟩ = 7 / 50 ∧
    (7 / 50 : ℚ) ≠ 0 := by
  refine ⟨by decide, ?_, by norm_num⟩
  rw [calculateInterest_30360_eval (KontoData.mk ⟨2023, 1, 31⟩ ⟨2023, 1, 30⟩ 5 1000
      (some DayCountConvention.thirty360) none) ⟨2023, 1, 31⟩ ⟨2023, 1, 30⟩ rfl (by decide),
    show calculate30360Days (⟨2023, 1, 31⟩ : Date) ⟨2023, 1, 30⟩ = 1 from by decide]
  rw [round2_eval _ 14 (by norm_num) (by norm_num)]
  norm_num

/-- C4 (amended): for `end < start` the calculation returns exactly 0 under
the default ACTUAL convention (and never throws — the model is total); under
`THIRTY_360` it returns 0 exactly when the capped-day formula is ≤ 0, which an
inverted range within one month can violate. -/
theorem inverted_range_amended :
    (∀ entry : KontoData, ∀ s e : Date,
      entry.dayCountConvention.getD DayCountConvention.actual =
        DayCountConvention.actual →
      e.toDays < s.toDays → calculateInterest entry s e = 0) ∧
    (∀ entry : KontoData, ∀ s e : Date,
      entry.dayCountConvention = some DayCountConvention.thirty360 →
      calculate30360Days s e ≤ 0 → calculateInterest entry s e = 0) := by
  constructor
  · intro entry s e hconv hlt
    have hd : actualDays s e ≤ 0 := by
      unfold actualDays diffDays
      omega
    simp [calculateInterest, hconv, hd]
  · intro entry s e hconv hd
    simp [calculateInterest, hconv, hd]

theorem inverted_range_amended_witness :
    calculateInterest (KontoData.mk ⟨2024, 5, 10⟩ ⟨2024, 5, 9⟩ 5 1000 none none)
      ⟨2024, 5, 10⟩ ⟨2024, 5, 9⟩ = 0 :=
  inverted_range_amended.1 (KontoData.mk ⟨2024, 5, 10⟩ ⟨2024, 5, 9⟩ 5 1000 none none)
    ⟨2024, 5, 10⟩ ⟨2024, 5, 9⟩ rfl (by decide)

end Zinsrechner

namespace Zinsrechner

/-- C7 counterexample: for a position 01.01.2023–31.12.2023 (1000 at 5%) and
the window 01.01.2024–31.03.2024 lying entirely after the position's end date,
`src/AppLayout.tsx` returns 12.33 (it never clips the window at `endDatum`),
and the `part_003` variant returns −0.14 for the window starting 02.01.2024
(its end-clip branch produces a negative day count) — both nonzero. -/
theorem quarterly_no_end_clip_counterexample :
    (Date.mk 2023 12 31).toDays < (Date.mk 2024 1 1).toDays ∧
    AppLayout.calculateQuarterlySingleInterest (some ⟨2024, 1, 1⟩) (some ⟨2024, 3, 31⟩)
      (KontoData.mk ⟨2023, 1, 1⟩ ⟨2023, 12, 31⟩ 5 1000 none none) = 1233 / 100 ∧
    Part003.calculateQuarterlySingleInterest (some ⟨2024, 1, 2⟩) (some ⟨2024, 3, 31⟩)
      (KontoData.mk ⟨2023, 1, 1⟩ ⟨2023, 12, 31⟩ 5 1000 none none) = -7 / 50 ∧
    (1233 / 100 : ℚ) ≠ 0 ∧ (-7 / 50 : ℚ) ≠ 0 := by
  refine ⟨by decide, ?_, ?_, by norm_num, by norm_num⟩
  · simp only [AppLayout.calculateQuarterlySingleInterest]
    rw [if_neg (by decide), if_neg (by decide)]
    simp only [AppLayout.calculateInterest]
    rw [show diffDays (⟨2024, 3, 31⟩ : Date) ⟨2024, 1, 1⟩ = 90 from by decide]
    rw [round2_eval _ 1233 (by norm_num) (by norm_num)]
    norm_num
  · simp only [Part003.calculateQuarterlySingleInterest]
    rw [if_neg (by decide), if_neg (by decide), if_pos (by decide)]
    simp only [Part003.calculateInterest]
    rw [show diffDays (⟨2023, 12, 31⟩ : Date) ⟨2024, 1, 2⟩ + 1 = -1 from by decide]
    rw [round2_eval _ (-14) (by norm_num) (by norm_num)]
    norm_num

/-- C7 (amended): the in-window query clips only at the position's start: a
window ending before `startDatum` yields 0 and a window starting before
`startDatum` is accrued from `startDatum`; the window end is never compared
with `endDatum` in `src/AppLayout.tsx`, so a window entirely after the end
date accrues as if the position were still running. -/
theorem quarterly_start_clip_amended :
    (∀ qb qe : Date, ∀ entry : KontoData,
      qe.toDays < entry.startDatum.toDays →
      AppLayout.calculateQuarterlySingleInterest (some qb) (some qe) entry = 0) ∧
    (∀ qb qe : Date, ∀ entry : KontoData,
      ¬ qe.toDays < entry.startDatum.toDays →
      qb.toDays < entry.startDatum.toDays →
      AppLayout.calculateQuarterlySingleInterest (some qb) (some qe) entry =
        AppLayout.calculateInterest entry entry.startDatum qe) ∧
    (∀ qb qe : Date, ∀ entry : KontoData,
      ¬ qe.toDays < entry.startDatum.toDays →
      ¬ qb.toDays < entry.startDatum.toDays →
      AppLayout.calculateQuarterlySingleInterest (some qb) (some qe) entry =
        AppLayout.calculateInterest entry qb qe) := by
  refine ⟨?_, ?_, ?_⟩
  · intro qb qe entry h1
    simp only [AppLayout.calculateQuarterlySingleInterest]
    rw [if_pos h1]
  · intro qb qe entry h1 h2
    simp only [AppLayout.calculateQuarterlySingleInterest]
    rw [if_neg h1, if_pos h2]
  · intro qb qe entry h1 h2
    simp only [AppLayout.calculateQuarterlySingleInterest]
    rw [if_neg h1, if_neg h2]

theorem quarterly_start_clip_amended_witness :
    AppLayout.calculateQuarterlySingleInterest (some ⟨2022, 1, 1⟩) (some ⟨2022, 3, 31⟩)
      (KontoData.mk ⟨2023, 1, 1⟩ ⟨2023, 12, 31⟩ 5 1000 none none) = 0 :=
  quarterly_start_clip_amended.1 ⟨2022, 1, 1⟩ ⟨2022, 3, 31⟩
    (KontoData.mk ⟨2023, 1, 1⟩ ⟨2023, 12, 31⟩ 5 1000 none none) (by decide)

/-- C8: the reserve figure (`Rückstellung` column) equals accrued-to-cutoff
interest minus the booked amount, with no clamping — it is negative whenever
the booked amount exceeds the accrued interest. -/
theorem reserve_unclamped :
    (∀ qe : Option Date, ∀ entry : KontoData,
      AppLayout.rueckstellung qe entry =
        AppLayout.calculateAccumulatedInterest qe entry -
          entry.verbuchteRueckstellung.getD 0) ∧
    (∀ qe : Option Date, ∀ entry : KontoData,
      AppLayout.calculateAccumulatedInterest qe entry <
        entry.verbuchteRueckstellung.getD 0 →
      AppLayout.rueckstellung qe entry < 0) := by
  constructor
  · intro qe entry
    rfl
  · intro qe entry hover
    unfold AppLayout.rueckstellung
    linarith

theorem reserve_unclamped_witness :
    AppLayout.rueckstellung (some ⟨2023, 6, 30⟩)
      (KontoData.mk ⟨2023, 1, 1⟩ ⟨2023, 12, 31⟩ 5 1000 none (some 100)) < 0 :=
  reserve_unclamped.2 (some ⟨2023, 6, 30⟩)
    (KontoData.mk ⟨2023, 1, 1⟩ ⟨2023, 12, 31⟩ 5 1000 none (some 100)) (by
      simp only [AppLayout.calculateAccumulatedInterest]
      rw [if_neg (by decide)]
      simp only [AppLayout.calculateInterest]
      rw [show diffDays (⟨2023, 6, 30⟩ : Date) ⟨2023, 1, 1⟩ = 180 from by decide]
      rw [round2_eval _ 2466 (by norm_num) (by norm_num)]
      norm_num)

/-- C9: the aggregate grand total is the 2-decimal rounding of the sum of the
already-rounded per-position amounts; it does not re-derive the total from
raw values — two positions whose raw interest 1/365 each rounds to 0.00 give
total 0.00, while rounding the raw sum 2/365 would give 0.01. -/
theorem aggregation_consistency :
    (∀ data : List KontoData,
      AppLayout.calculateTotalInterest data =
        round2 ((data.map AppLayout.calculateSingleInterest).sum)) ∧
    (∀ entry : KontoData,
      AppLayout.calculateSingleInterest entry =
        round2 (entry.nominal * (entry.zinssatz / 100) *
          ((diffDays entry.endDatum entry.startDatum : ℚ) / 365))) ∧
    AppLayout.calculateTotalInterest
      [KontoData.mk ⟨2023, 1, 1⟩ ⟨2023, 1, 2⟩ 100 1 none none,
        KontoData.mk ⟨2023, 1, 1⟩ ⟨2023, 1, 2⟩ 100 1 none none] = 0 ∧
    round2 (2 * ((1 : ℚ) * (100 / 100) * (1 / 365))) = 1 / 100 := by
  refine ⟨fun data => rfl, fun entry => rfl, ?_, ?_⟩
  · have h1 : AppLayout.calculateSingleInterest
        (KontoData.mk ⟨2023, 1, 1⟩ ⟨2023, 1, 2⟩ 100 1 none none) = 0 := by
      simp only [AppLayout.calculateSingleInterest, AppLayout.calculateInterest]
      rw [show diffDays (⟨2023, 1, 2⟩ : Date) ⟨2023, 1, 1⟩ = 1 from by decide]
      rw [round2_eval _ 0 (by norm_num) (by norm_num)]
      norm_num
    simp only [AppLayout.calculateTotalInterest, List.map_cons, List.map_nil,
      List.sum_cons, List.sum_nil, h1]
    rw [show (0 : ℚ) + (0 + 0) = 0 by norm_num]
    rw [round2_eval _ 0 (by norm_num) (by norm_num)]
    norm_num
  · rw [round2_eval _ 1 (by norm_num) (by norm_num)]
    norm_num

end Zinsrechner
